import Mathlib

/-!
Shallow embedding of the recommendation subsystem of the
Personalized-Marketing-Platform repository (`src/ml_model.py`), together with
theorems settling the specification claims about it.

Modelling conventions:
- Python dicts holding customer / campaign records become Lean structures with
  `Option` fields; `d["k"]` (which raises `KeyError` when absent) becomes a
  fallible lookup, `d.get("k", default)` becomes `Option.getD`.
- The `customers` mapping becomes an association list with Python-dict lookup
  semantics (`List.lookup`).
- Fallible Python code returns `Except PyError`; a raised exception is
  `Except.error`.
- The persisted model file (`recommender.pkl`) becomes an explicit `Store`
  value threaded through the functions that touch the filesystem.
- The sklearn `DictVectorizer` and `LogisticRegression` objects are modelled
  at their interface: the vectorizer as a concrete one-hot / pass-through
  encoding over a vocabulary fixed at fit time, and the fitted classifier as a
  closed label set together with a deterministic decision function.  The
  learned real-valued weights are abstracted into that decision function
  (universally quantified in the theorems); the discrete behaviour that the
  claims depend on — determinism, predictions drawn from the training label
  set, and `fit` raising `ValueError` when the training labels contain fewer
  than two distinct classes — is modelled faithfully.
-/

namespace MLModel

/-- Python exception values that `ml_model.py` can raise. -/
inductive PyError where
  /-- `KeyError` from `d["k"]` on a dict missing key `k`. -/
  | keyError : String → PyError
  /-- `ValueError`, e.g. raised by `LogisticRegression.fit` on a
  single-class label vector. -/
  | valueError : String → PyError
  /-- `OSError`/`IOError` from a failing `open(..., "wb")` or write. -/
  | ioError : String → PyError
  /-- `pickle.UnpicklingError` (or `EOFError`) from `pickle.load` on a
  corrupt or truncated blob. -/
  | unpicklingError : PyError
deriving DecidableEq, Repr

/-- A customer record as stored by the application
(`{"name": ..., "interest": ..., "created_at": ...}`); every field is
optional because the recommender only ever reads them with `.get`. -/
structure Customer where
  name : Option String := none
  interest : Option String := none
  created_at : Option String := none
deriving DecidableEq, Repr

/-- A campaign-outcome record
(`{"id", "customer_id", "product", "status", "created_at", "open_rate",
"click_rate", "conversions"}`).  Fields are optional: `ml_model.py` reads
`customer_id` and `product` with raising `[...]` access and the engagement
metrics with defaulting `.get`. -/
structure Campaign where
  id : Option String := none
  customer_id : Option String := none
  product : Option String := none
  status : Option String := none
  created_at : Option String := none
  open_rate : Option Int := none
  click_rate : Option Int := none
  conversions : Option Int := none
deriving DecidableEq, Repr

/-- The customers mapping `{customer_id: record}`. -/
abbrev Customers := List (String × Customer)

/-- Python `d[key]`: the value when present, a raised `KeyError` otherwise. -/
def getItem {α : Type} (field : Option α) (key : String) : Except PyError α :=
  match field with
  | some v => .ok v
  | none => .error (.keyError key)

/-- The feature dictionary built by `ml_model.py` — exactly the four keys
`interest`, `open_rate`, `click_rate`, `conversions`, as Lean structure
fields. -/
structure Feature where
  interest : String
  open_rate : Int
  click_rate : Int
  conversions : Int
deriving DecidableEq, Repr

/-- The per-campaign feature construction inside `build_training_data`
(lines 20-36 of `ml_model.py`): `cust = customers.get(cust_id, {})`,
`interest = cust.get("interest", "unknown")`, and engagement metrics from the
campaign with `.get(..., 0)` defaults. -/
def featureOf (customers : Customers) (custId : String) (c : Campaign) : Feature :=
  { interest := ((customers.lookup custId).bind Customer.interest).getD "unknown"
  , open_rate := c.open_rate.getD 0
  , click_rate := c.click_rate.getD 0
  , conversions := c.conversions.getD 0 }

/-- `build_training_data(customers, campaigns)`: one (feature dict, product
label) pair per campaign, in input order; `c["customer_id"]` and
`c["product"]` raise `KeyError` when the key is absent. -/
def build_training_data (customers : Customers) :
    List Campaign → Except PyError (List Feature × List String)
  | [] => .ok ([], [])
  | c :: rest => do
    let custId ← getItem c.customer_id "customer_id"
    let feat := featureOf customers custId c
    let prod ← getItem c.product "product"
    let (X, y) ← build_training_data customers rest
    .ok (feat :: X, prod :: y)

/-- Interface model of a fitted sklearn `DictVectorizer(sparse=False)`: the
vocabulary of feature names fixed at fit time.  String-valued features
contribute one-hot columns named `"interest=<value>"`; numeric features pass
through under their own name. -/
structure Vectorizer where
  vocab : List String
deriving DecidableEq, Repr

/-- `DictVectorizer.transform` on one feature dict: one column per
vocabulary entry, 1 for the matching one-hot interest column, the numeric
value for a numeric column, 0 otherwise (unseen feature values are dropped). -/
def Vectorizer.transform (vec : Vectorizer) (f : Feature) : List Int :=
  vec.vocab.map fun name =>
    if name = "interest=" ++ f.interest then 1
    else if name = "open_rate" then f.open_rate
    else if name = "click_rate" then f.click_rate
    else if name = "conversions" then f.conversions
    else 0

/-- `DictVectorizer.fit`: the vocabulary collected from the training feature
dicts (one one-hot name per distinct interest value, plus the three numeric
feature names).  Column order is irrelevant to every claim below, so the
names are kept in first-seen order rather than sorted. -/
def Vectorizer.fit (X : List Feature) : Vectorizer :=
  ⟨((X.map fun f => "interest=" ++ f.interest) ++
      ["open_rate", "click_rate", "conversions"]).dedup⟩

/-- Interface model of a fitted sklearn classifier: the closed set of class
labels seen at fit time and a deterministic decision function from feature
vectors to an index into that set.  The learned logistic-regression weights
are abstracted into `decision`; predictions are always drawn from
`classes`. -/
structure Classifier where
  classes : List String
  classes_ne : classes ≠ []
  decision : List Int → Nat

/-- `clf.predict` on a single vectorized feature row: the class label the
decision function selects. -/
def Classifier.predict (clf : Classifier) (x : List Int) : String :=
  clf.classes.get
    ⟨clf.decision x % clf.classes.length,
      Nat.mod_lt _ (List.length_pos.mpr clf.classes_ne)⟩

/-- `LogisticRegression(max_iter=500).fit(X_vec, y)`: raises
`ValueError` when the training labels contain fewer than two distinct
classes ("This solver needs samples of at least 2 classes in the data"),
otherwise produces a fitted classifier whose label set is the distinct
training labels.  The learned decision function is abstracted as the
parameter `d`. -/
def LogisticRegression.fit (d : List Int → Nat) (_Xvec : List (List Int))
    (y : List String) : Except PyError Classifier :=
  if h : y.dedup.length < 2 then
    .error (.valueError "This solver needs samples of at least 2 classes in the data")
  else
    .ok { classes := y.dedup
        , classes_ne := by
            intro hnil
            rw [hnil] at h
            exact h (by decide)
        , decision := d }

/-- State of the file at `MODEL_PATH` (`recommender.pkl`). -/
inductive FileState where
  /-- The file does not exist (`os.path.exists` is false). -/
  | absent : FileState
  /-- The file exists but holds a truncated or otherwise corrupt blob on
  which `pickle.load` raises. -/
  | corrupt : FileState
  /-- The file holds a complete pickled `(vec, clf)` pair. -/
  | saved : Vectorizer → Classifier → FileState

/-- The durable-storage environment: the model file's state, plus whether an
attempt to open the file for writing fails with an I/O error (a disk fault,
modelled so that write failures are expressible). -/
structure Store where
  file : FileState
  writeFails : Bool := false

/-- `load_model()`: `None` when the file does not exist; otherwise
`pickle.load`, which raises on a corrupt blob and returns the stored pair on
a complete one. -/
def load_model (s : Store) : Except PyError (Option (Vectorizer × Classifier)) :=
  match s.file with
  | .absent => .ok none
  | .corrupt => .error .unpicklingError
  | .saved vec clf => .ok (some (vec, clf))

/-- `open(MODEL_PATH, "wb")`: opening for writing truncates the file in
place, so the stored blob is immediately corrupt/empty. -/
def openTruncate (s : Store) : Store := { s with file := .corrupt }

/-- `pickle.dump((vec, clf), f)` running to completion: the file now holds
the full serialized pair. -/
def dumpPair (vec : Vectorizer) (clf : Classifier) (s : Store) : Store :=
  { s with file := .saved vec clf }

/-- `train_and_save(customers, campaigns)`: build the training data, return
`None` (without touching the store) on fewer than 5 examples, otherwise fit
vectorizer and classifier, write the pair to `MODEL_PATH`, and return it.
The abstract classifier decision function `d` stands for the learned
weights; the write raises `IOError` when the store's write path fails. -/
def train_and_save (d : List Int → Nat) (customers : Customers)
    (campaigns : List Campaign) (s : Store) :
    Except PyError (Option (Vectorizer × Classifier) × Store) := do
  let (X, y) ← build_training_data customers campaigns
  if X.length < 5 then
    .ok (none, s)
  else
    let vec := Vectorizer.fit X
    let Xvec := X.map vec.transform
    let clf ← LogisticRegression.fit d Xvec y
    if s.writeFails then
      .error (.ioError "could not open model file for writing")
    else
      .ok (some (vec, clf), dumpPair vec clf (openTruncate s))

/-- The hardcoded fallback table in `recommend` (lines 83-88). -/
def fallbackMapping : List (String × String) :=
  [("electronics", "Wireless Headphones"),
   ("gadgets", "Smartwatch"),
   ("computers", "Laptop"),
   ("music", "Bluetooth Speaker")]

/-- The interest tag `recommend` resolves for a customer id:
`customers.get(customer_id, {}).get("interest", "unknown")`. -/
def interestOf (customers : Customers) (customer_id : String) : String :=
  ((customers.lookup customer_id).bind Customer.interest).getD "unknown"

/-- The list comprehension
`[c for c in campaigns if c["customer_id"] == customer_id]`; the raising
`c["customer_id"]` access runs on every element. -/
def filterByCustomer (customer_id : String) :
    List Campaign → Except PyError (List Campaign)
  | [] => .ok []
  | c :: rest => do
    let k ← getItem c.customer_id "customer_id"
    let r ← filterByCustomer customer_id rest
    .ok (if k = customer_id then c :: r else r)

/-- `recommend(customers, campaigns, customer_id)`: load the model, resolve
the customer's interest; with no model, the rule-based fallback keyed on
`interest.lower()`; with a model, build the single feature dict from the
customer's last matching campaign (all-zero engagement when none) and return
the classifier's prediction on its vectorization. -/
def recommend (customers : Customers) (campaigns : List Campaign)
    (customer_id : String) (s : Store) : Except PyError String := do
  let model ← load_model s
  let interest := interestOf customers customer_id
  match model with
  | none =>
    .ok ((fallbackMapping.lookup interest.toLower).getD "Wireless Headphones")
  | some (vec, clf) =>
    let recent ← filterByCustomer customer_id campaigns
    let (o, cl, cv) :=
      match recent.getLast? with
      | some last => (last.open_rate.getD 0, last.click_rate.getD 0, last.conversions.getD 0)
      | none => ((0 : Int), (0 : Int), (0 : Int))
    let features : Feature :=
      { interest := interest, open_rate := o, click_rate := cl, conversions := cv }
    .ok (clf.predict (vec.transform features))

/-! Spec-side definitions and well-formedness predicates used to state the
claims, plus concrete data for witnesses and counterexamples. -/

/-- A campaigns list in which every record carries the `customer_id` and
`product` keys that `build_training_data` accesses with raising `[...]`. -/
def wellKeyed (campaigns : List Campaign) : Prop :=
  ∀ c ∈ campaigns, c.customer_id ≠ none ∧ c.product ≠ none

instance : DecidablePred wellKeyed := fun campaigns =>
  inferInstanceAs (Decidable (∀ c ∈ campaigns, _ ∧ _))

/-- A campaigns list in which every record carries the `customer_id` key
that `recommend`'s list comprehension accesses with raising `[...]`. -/
def hasCustomerId (campaigns : List Campaign) : Prop :=
  ∀ c ∈ campaigns, c.customer_id ≠ none

instance : DecidablePred hasCustomerId := fun campaigns =>
  inferInstanceAs (Decidable (∀ c ∈ campaigns, _))

/-- The label column of the training data: each campaign's `product` value
(defaulted only to make the function total; under `wellKeyed` the default is
never used). -/
def labelsOf (campaigns : List Campaign) : List String :=
  campaigns.map fun c => c.product.getD ""

/-- The feature row a well-keyed campaign contributes to the training data. -/
def featureRow (customers : Customers) (c : Campaign) : Feature :=
  featureOf customers (c.customer_id.getD "") c

/-- The fallback table exactly as the specification states it:
electronics→Wireless Headphones, gadgets→Smartwatch, computers→Laptop,
music→Bluetooth Speaker, anything else→Wireless Headphones,
case-insensitively. -/
def specFallback (interest : String) : String :=
  if interest.toLower = "electronics" then "Wireless Headphones"
  else if interest.toLower = "gadgets" then "Smartwatch"
  else if interest.toLower = "computers" then "Laptop"
  else if interest.toLower = "music" then "Bluetooth Speaker"
  else "Wireless Headphones"

/-- The last element of the campaigns list whose `customer_id` matches —
the spec's notion of a customer's most recent (last-appended) outcome. -/
def lastMatching (campaigns : List Campaign) (customer_id : String) : Option Campaign :=
  (campaigns.filter fun c => c.customer_id == some customer_id).getLast?

/-- The single inference-time feature dict as the spec describes it: the
customer's interest plus the engagement metrics of their last-appended
matching campaign, all-zero when they have none. -/
def inferenceFeature (customers : Customers) (campaigns : List Campaign)
    (customer_id : String) : Feature :=
  match lastMatching campaigns customer_id with
  | some last =>
    { interest := interestOf customers customer_id
    , open_rate := last.open_rate.getD 0
    , click_rate := last.click_rate.getD 0
    , conversions := last.conversions.getD 0 }
  | none =>
    { interest := interestOf customers customer_id
    , open_rate := 0, click_rate := 0, conversions := 0 }

/-- A customer record carrying only an interest tag. -/
def custWith (interest : String) : Customer := { interest := some interest }

/-- A minimal well-keyed campaign record. -/
def campWith (customer_id product : String) : Campaign :=
  { customer_id := some customer_id, product := some product }

/-- Five distinct customers, all with interest "computers" — the spec's
degenerate-scenario customer store. -/
def laptopCustomers : Customers :=
  [("c1", custWith "computers"), ("c2", custWith "computers"),
   ("c3", custWith "computers"), ("c4", custWith "computers"),
   ("c5", custWith "computers")]

/-- Five campaigns for those customers, all with product "Laptop" — a
single-class training history. -/
def laptopCampaigns : List Campaign :=
  [campWith "c1" "Laptop", campWith "c2" "Laptop", campWith "c3" "Laptop",
   campWith "c4" "Laptop", campWith "c5" "Laptop"]

/-- Five campaigns whose products span two distinct labels. -/
def mixedCampaigns : List Campaign :=
  [campWith "c1" "Laptop", campWith "c2" "Smartwatch", campWith "c3" "Laptop",
   campWith "c4" "Laptop", campWith "c5" "Laptop"]

/-- A placeholder decision function standing for some learned weights. -/
def dZero : List Int → Nat := fun _ => 0

/-- A concrete fitted vectorizer for witness states. -/
def wVec : Vectorizer :=
  ⟨["interest=computers", "open_rate", "click_rate", "conversions"]⟩

/-- A concrete fitted classifier for witness states. -/
def wClf : Classifier :=
  { classes := ["Laptop", "Smartwatch"]
  , classes_ne := by decide
  , decision := dZero }

/-- `train_and_save` produced a fitted model (the "Trained" outcome). -/
def isTrained (r : Except PyError (Option (Vectorizer × Classifier) × Store)) : Prop :=
  match r with
  | .ok (some _, _) => True
  | _ => False

/-- The call failed with a raised `KeyError`. -/
def isKeyError {α : Type} (r : Except PyError α) : Prop :=
  match r with
  | .error (.keyError _) => True
  | _ => False

/-- The vectorizer fitted by a training pass over `mixedCampaigns`. -/
def wVecMixed : Vectorizer :=
  Vectorizer.fit (mixedCampaigns.map (featureRow laptopCustomers))

/-- The classifier fitted by a training pass over `mixedCampaigns` (the
learned weights abstracted as `dZero`). -/
def wClfMixed : Classifier :=
  { classes := (labelsOf mixedCampaigns).dedup
  , classes_ne := by decide
  , decision := dZero }

/-- A one-customer store for inference witnesses. -/
def wCustomers : Customers := [("c1", custWith "computers")]

/-- A fully populated campaign record for inference witnesses. -/
def wCampaign : Campaign :=
  { customer_id := some "c1", product := some "Laptop",
    open_rate := some 40, click_rate := some 20, conversions := some 3 }

/-! ## Helper lemmas -/

/-- Reduction of the `Except` monad's bind on a success value. -/
theorem except_bind_ok {α β : Type} (a : α) (f : α → Except PyError β) :
    Except.bind (.ok a) f = f a := rfl

/-- Reduction of the `Except` monad's bind on a raised error. -/
theorem except_bind_err {α β : Type} (e : PyError) (f : α → Except PyError β) :
    Except.bind (.error e) f = .error e := rfl

/-- On a well-keyed campaigns list, `build_training_data` succeeds and
returns one feature row and one label per campaign, in order. -/
theorem build_training_data_eq_of_wellKeyed (customers : Customers)
    (campaigns : List Campaign) (h : wellKeyed campaigns) :
    build_training_data customers campaigns =
      .ok (campaigns.map (featureRow customers), labelsOf campaigns) := by
  induction campaigns with
  | nil => rfl
  | cons c rest ih =>
    obtain ⟨hcid, hprod⟩ := h c (List.mem_cons_self c rest)
    have hrest : wellKeyed rest := fun x hx => h x (List.mem_cons_of_mem c hx)
    obtain ⟨k, hk⟩ := Option.ne_none_iff_exists'.mp hcid
    obtain ⟨p, hp⟩ := Option.ne_none_iff_exists'.mp hprod
    simp only [build_training_data, hk, hp, getItem, bind, except_bind_ok,
      ih hrest, labelsOf, featureRow, List.map_cons]
    simp [hk]

/-- A campaigns list containing a record missing `customer_id` or `product`
makes `build_training_data` raise a `KeyError`. -/
theorem build_training_data_keyError (customers : Customers)
    (campaigns : List Campaign)
    (h : ∃ c ∈ campaigns, c.customer_id = none ∨ c.product = none) :
    isKeyError (build_training_data customers campaigns) := by
  induction campaigns with
  | nil => obtain ⟨c, hc, _⟩ := h; exact absurd hc (List.not_mem_nil c)
  | cons c rest ih =>
    obtain ⟨c0, hc0, hbad⟩ := h
    rcases List.mem_cons.mp hc0 with hceq | hcmem
    · subst hceq
      rcases hbad with hcid | hprod
      · simp [build_training_data, hcid, getItem, isKeyError, bind,
          except_bind_ok, except_bind_err]
      · cases hk : c0.customer_id with
        | none =>
          simp [build_training_data, hk, getItem, isKeyError, bind,
            except_bind_ok, except_bind_err]
        | some k =>
          simp [build_training_data, hk, hprod, getItem, isKeyError, bind,
            except_bind_ok, except_bind_err]
    · cases hk : c.customer_id with
      | none =>
        simp [build_training_data, hk, getItem, isKeyError, bind,
          except_bind_ok, except_bind_err]
      | some k =>
        cases hp : c.product with
        | none =>
          simp [build_training_data, hk, hp, getItem, isKeyError, bind,
            except_bind_ok, except_bind_err]
        | some p =>
          have hrec := ih ⟨c0, hcmem, hbad⟩
          cases hrest : build_training_data customers rest with
          | error e =>
            rw [hrest] at hrec
            cases e <;>
              simp_all [build_training_data, hk, hp, getItem, isKeyError, bind,
                except_bind_ok, except_bind_err]
          | ok Xy =>
            rw [hrest] at hrec
            simp [isKeyError] at hrec

/-- The hardcoded fallback table lookup agrees with the spec's fallback
function. -/
theorem fallback_lookup_eq (interest : String) :
    (fallbackMapping.lookup interest.toLower).getD "Wireless Headphones" =
      specFallback interest := by
  unfold specFallback fallbackMapping
  split_ifs with h1 h2 h3 h4
  · rw [h1]; decide
  · rw [h2]; decide
  · rw [h3]; decide
  · rw [h4]; decide
  · have e1 : (interest.toLower == "electronics") = false :=
      beq_eq_false_iff_ne.mpr h1
    have e2 : (interest.toLower == "gadgets") = false :=
      beq_eq_false_iff_ne.mpr h2
    have e3 : (interest.toLower == "computers") = false :=
      beq_eq_false_iff_ne.mpr h3
    have e4 : (interest.toLower == "music") = false :=
      beq_eq_false_iff_ne.mpr h4
    simp [List.lookup, e1, e2, e3, e4]

/-- With no model file present, `recommend` returns the spec's fallback for
the resolved interest tag. -/
theorem recommend_absent (customers : Customers) (campaigns : List Campaign)
    (customer_id : String) (w : Bool) :
    recommend customers campaigns customer_id ⟨.absent, w⟩ =
      .ok (specFallback (interestOf customers customer_id)) := by
  rw [← fallback_lookup_eq]
  rfl

/-- On a campaigns list whose records all carry `customer_id`, the
comprehension in `recommend` succeeds and is plain filtering. -/
theorem filterByCustomer_eq (customer_id : String) (campaigns : List Campaign)
    (h : hasCustomerId campaigns) :
    filterByCustomer customer_id campaigns =
      .ok (campaigns.filter fun c => c.customer_id == some customer_id) := by
  induction campaigns with
  | nil => rfl
  | cons c rest ih =>
    have hc := h c (List.mem_cons_self c rest)
    have hrest : hasCustomerId rest := fun x hx => h x (List.mem_cons_of_mem c hx)
    obtain ⟨k, hk⟩ := Option.ne_none_iff_exists'.mp hc
    by_cases hkc : k = customer_id
    · have hb : (c.customer_id == some customer_id) = true := by
        rw [hk, hkc]; exact beq_self_eq_true _
      simp [filterByCustomer, hk, getItem, ih hrest, bind, except_bind_ok,
        List.filter_cons, hb, hkc]
    · have hb : (c.customer_id == some customer_id) = false := by
        rw [hk]
        exact beq_eq_false_iff_ne.mpr (by simp [hkc])
      simp [filterByCustomer, hk, getItem, ih hrest, bind, except_bind_ok,
        List.filter_cons, hb, hkc]

/-- Training on a well-keyed history with fewer than 5 entries is a no-op
returning the no-model signal, with the store unchanged. -/
theorem train_small_eq (d : List Int → Nat) (customers : Customers)
    (campaigns : List Campaign) (s : Store) (hkeys : wellKeyed campaigns)
    (hlen : campaigns.length < 5) :
    train_and_save d customers campaigns s = .ok (none, s) := by
  unfold train_and_save
  rw [build_training_data_eq_of_wellKeyed customers campaigns hkeys]
  have hX : (campaigns.map (featureRow customers)).length < 5 := by
    rw [List.length_map]; omega
  simp only [bind, except_bind_ok, if_pos hX]

/-- Training on a well-keyed, ≥5-entry, ≥2-label history with a failing
write path raises `IOError`. -/
theorem train_io_error (d : List Int → Nat) (customers : Customers)
    (campaigns : List Campaign) (s : Store) (hkeys : wellKeyed campaigns)
    (hlen : 5 ≤ campaigns.length)
    (hcls : 2 ≤ (labelsOf campaigns).dedup.length) (hw : s.writeFails = true) :
    train_and_save d customers campaigns s =
      .error (.ioError "could not open model file for writing") := by
  unfold train_and_save
  rw [build_training_data_eq_of_wellKeyed customers campaigns hkeys]
  have hX : ¬ (campaigns.map (featureRow customers)).length < 5 := by
    rw [List.length_map]; omega
  have hy : ¬ (labelsOf campaigns).dedup.length < 2 := by omega
  simp only [bind, except_bind_ok, if_neg hX, LogisticRegression.fit,
    dif_neg hy, hw]
  exact if_pos trivial

/-- Training on a well-keyed, ≥5-entry, ≥2-label history with a working
write path fits and persists a pair that an immediate load returns
exactly, with the distinct history products as label set. -/
theorem train_fit_success (d : List Int → Nat) (customers : Customers)
    (campaigns : List Campaign) (s : Store) (hkeys : wellKeyed campaigns)
    (hlen : 5 ≤ campaigns.length)
    (hcls : 2 ≤ (labelsOf campaigns).dedup.length)
    (hw : s.writeFails = false) :
    match train_and_save d customers campaigns s with
    | .ok (some (vec, clf), s2) =>
        s2.file = .saved vec clf ∧
        load_model s2 = .ok (some (vec, clf)) ∧
        clf.classes = (labelsOf campaigns).dedup
    | _ => False := by
  unfold train_and_save
  rw [build_training_data_eq_of_wellKeyed customers campaigns hkeys]
  have hX : ¬ (campaigns.map (featureRow customers)).length < 5 := by
    rw [List.length_map]; omega
  have hy : ¬ (labelsOf campaigns).dedup.length < 2 := by omega
  simp only [bind, except_bind_ok, if_neg hX, LogisticRegression.fit,
    dif_neg hy, hw, if_neg (Bool.false_ne_true), load_model, dumpPair,
    openTruncate]
  exact ⟨trivial, trivial, trivial⟩

/-! ## Claim theorems -/

/-- C1, counterexample: on the spec's own degenerate scenario — five
campaigns for five distinct customers, all with product "Laptop" and
interest "computers" — `train_and_save` does not succeed: the labels form a
single class, so the classifier fit raises `ValueError` and no model is
persisted, contradicting the claim that training succeeds on every history
with at least 5 entries. -/
theorem c1_single_class_counterexample :
    train_and_save dZero laptopCustomers laptopCampaigns ⟨.absent, false⟩ =
      .error (.valueError
        "This solver needs samples of at least 2 classes in the data") := by
  rfl

/-- C1, amended: for every customers mapping and every well-keyed campaigns
list with at least 5 entries whose products span at least two distinct
labels, and a working write path, `train_and_save` fits and persists a
(Vectorizer, Classifier) pair such that an immediately following
`load_model` returns exactly that pair (hence producing the same
predictions), the persisted file holding the pair whose label set is the
distinct products of the history. -/
theorem c1_train_then_load_roundtrip (d : List Int → Nat) (customers : Customers)
    (campaigns : List Campaign) (s : Store) (hkeys : wellKeyed campaigns)
    (hlen : 5 ≤ campaigns.length)
    (hcls : 2 ≤ (labelsOf campaigns).dedup.length)
    (hw : s.writeFails = false) :
    match train_and_save d customers campaigns s with
    | .ok (some (vec, clf), s2) =>
        s2.file = .saved vec clf ∧
        load_model s2 = .ok (some (vec, clf)) ∧
        clf.classes = (labelsOf campaigns).dedup
    | _ => False :=
  train_fit_success d customers campaigns s hkeys hlen hcls hw

/-- C1, witness: the amended round-trip theorem instantiated on a concrete
5-entry history with two distinct product labels. -/
theorem c1_train_then_load_roundtrip_witness :
    match train_and_save dZero laptopCustomers mixedCampaigns ⟨.absent, false⟩ with
    | .ok (some (vec, clf), s2) =>
        s2.file = .saved vec clf ∧
        load_model s2 = .ok (some (vec, clf)) ∧
        clf.classes = (labelsOf mixedCampaigns).dedup
    | _ => False :=
  c1_train_then_load_roundtrip dZero laptopCustomers mixedCampaigns
    ⟨.absent, false⟩ (by decide) (by decide) (by decide) rfl

/-- C2: on any well-keyed history with fewer than 5 entries,
`train_and_save` reports insufficient data by returning the no-model signal
`None` and leaves the store — including any previously persisted model —
untouched. -/
theorem c2_insufficient_data (d : List Int → Nat) (customers : Customers)
    (campaigns : List Campaign) (s : Store) (hkeys : wellKeyed campaigns)
    (hlen : campaigns.length < 5) :
    train_and_save d customers campaigns s = .ok (none, s) :=
  train_small_eq d customers campaigns s hkeys hlen

/-- C2, witness: a one-entry history against a store already holding a
model; training returns `None` and the old model file is untouched. -/
theorem c2_insufficient_data_witness :
    train_and_save dZero laptopCustomers [campWith "c1" "Laptop"]
        ⟨.saved wVec wClf, false⟩ =
      .ok (none, ⟨.saved wVec wClf, false⟩) :=
  c2_insufficient_data dZero laptopCustomers [campWith "c1" "Laptop"]
    ⟨.saved wVec wClf, false⟩ (by decide) (by decide)

/-- C3: with no model persisted, `recommend` never raises and returns the
rule-based fallback product, determined case-insensitively by the
customer's resolved interest tag (`"unknown"` for a missing customer or
missing tag) through the spec's table: electronics→Wireless Headphones,
gadgets→Smartwatch, computers→Laptop, music→Bluetooth Speaker, anything
else→Wireless Headphones. -/
theorem c3_rule_fallback (customers : Customers) (campaigns : List Campaign)
    (customer_id : String) (w : Bool) :
    recommend customers campaigns customer_id ⟨.absent, w⟩ =
      .ok (specFallback (interestOf customers customer_id)) :=
  recommend_absent customers campaigns customer_id w

/-- C4, counterexample: with a present-but-corrupt persisted blob,
`recommend` does not degrade to the fallback — the unpickling failure
propagates to the caller as an error. -/
theorem c4_corrupt_blob_counterexample :
    recommend [] [] "c1" ⟨.corrupt, false⟩ = .error .unpicklingError := rfl

/-- C4, amended: only a missing model artifact is treated as "no model
present" (rule-based fallback, no error); a failure to load a
present-but-corrupt artifact is not caught, and `recommend` propagates the
load failure to the caller instead of falling back. -/
theorem c4_load_failure_propagates (customers : Customers)
    (campaigns : List Campaign) (customer_id : String) (w : Bool) :
    recommend customers campaigns customer_id ⟨.corrupt, w⟩ =
      .error .unpicklingError ∧
    recommend customers campaigns customer_id ⟨.absent, w⟩ =
      .ok (specFallback (interestOf customers customer_id)) :=
  ⟨rfl, recommend_absent customers campaigns customer_id w⟩

/-- C5, counterexample: on a trainable history (5 entries, two distinct
labels) with a failing persistence write, `train_and_save` raises `IOError`
instead of returning a distinct "PersistenceFailed" result value, so its
result does not distinguish three outcomes. -/
theorem c5_write_failure_counterexample :
    train_and_save dZero laptopCustomers mixedCampaigns ⟨.absent, true⟩ =
      .error (.ioError "could not open model file for writing") := rfl

/-- C5, amended: `train_and_save`'s return value distinguishes only two
outcomes — the fitted pair (Trained) and `None` (InsufficientData); a
failure of the persistence write is raised as an `IOError` exception, which
is distinct from the insufficient-data return but propagates to the caller
rather than being returned. -/
theorem c5_two_return_outcomes (d : List Int → Nat) (customers : Customers)
    (campaigns : List Campaign) (s : Store) (hkeys : wellKeyed campaigns) :
    (campaigns.length < 5 →
      train_and_save d customers campaigns s = .ok (none, s)) ∧
    (5 ≤ campaigns.length → 2 ≤ (labelsOf campaigns).dedup.length →
      s.writeFails = true →
      train_and_save d customers campaigns s =
        .error (.ioError "could not open model file for writing")) ∧
    (5 ≤ campaigns.length → 2 ≤ (labelsOf campaigns).dedup.length →
      s.writeFails = false →
      isTrained (train_and_save d customers campaigns s)) := by
  refine ⟨fun hlen => train_small_eq d customers campaigns s hkeys hlen,
    fun hlen hcls hw => train_io_error d customers campaigns s hkeys hlen hcls hw,
    fun hlen hcls hw => ?_⟩
  have h := train_fit_success d customers campaigns s hkeys hlen hcls hw
  revert h
  cases train_and_save d customers campaigns s with
  | error e => exact fun h => h.elim
  | ok r =>
    obtain ⟨mo, s2⟩ := r
    cases mo with
    | none => exact fun h => h.elim
    | some m => exact fun _ => trivial

/-- C5, witness: the amended theorem's write-failure branch instantiated on
a concrete trainable history over a store whose write path fails. -/
theorem c5_two_return_outcomes_witness :
    train_and_save dZero laptopCustomers mixedCampaigns ⟨.saved wVec wClf, true⟩ =
      .error (.ioError "could not open model file for writing") :=
  (c5_two_return_outcomes dZero laptopCustomers mixedCampaigns
      ⟨.saved wVec wClf, true⟩ (by decide)).2.1 (by decide) (by decide) rfl

/-- C6: with a model present, `recommend` builds its single feature dict
from the last element of the campaigns list whose `customer_id` matches
(last-appended, with all-zero engagement when none matches), transforms it
through the loaded vectorizer, and returns the loaded classifier's
predicted label verbatim — no confidence thresholding, no
catalog-membership check, no fallback blending — and that label always
belongs to the classifier's class set, which a fit fixes as exactly the
distinct labels seen at training. -/
theorem c6_model_inference (customers : Customers) (campaigns : List Campaign)
    (customer_id : String) (vec : Vectorizer) (clf : Classifier) (w : Bool)
    (hkeys : hasCustomerId campaigns) :
    recommend customers campaigns customer_id ⟨.saved vec clf, w⟩ =
      .ok (clf.predict (vec.transform
        (inferenceFeature customers campaigns customer_id))) ∧
    clf.predict (vec.transform
        (inferenceFeature customers campaigns customer_id)) ∈ clf.classes ∧
    (∀ (d : List Int → Nat) (Xvec : List (List Int)) (y : List String)
        (clf2 : Classifier),
      LogisticRegression.fit d Xvec y = .ok clf2 →
        clf2.classes = y.dedup) := by
  refine ⟨?_, List.get_mem _ _ _, ?_⟩
  · simp only [recommend, load_model, bind, except_bind_ok,
      filterByCustomer_eq customer_id campaigns hkeys,
      inferenceFeature, lastMatching]
    cases (campaigns.filter fun c => c.customer_id == some customer_id).getLast? with
    | none => rfl
    | some last => rfl
  · intro d Xvec y clf2 hfit
    unfold LogisticRegression.fit at hfit
    split at hfit
    · exact Except.noConfusion hfit
    · cases hfit
      rfl

/-- C6, witness: the inference theorem instantiated on a concrete customer,
one matching campaign, and a concrete fitted pair. -/
theorem c6_model_inference_witness :
    recommend wCustomers [wCampaign] "c1" ⟨.saved wVec wClf, false⟩ =
      .ok (wClf.predict (wVec.transform
        (inferenceFeature wCustomers [wCampaign] "c1"))) ∧
    wClf.predict (wVec.transform
        (inferenceFeature wCustomers [wCampaign] "c1")) ∈ wClf.classes :=
  ⟨(c6_model_inference wCustomers [wCampaign] "c1" wVec wClf false (by decide)).1,
   (c6_model_inference wCustomers [wCampaign] "c1" wVec wClf false (by decide)).2.1⟩

/-- C7: the feature builder produces a dictionary with exactly the four
keys interest, open_rate, click_rate, conversions (the four fields of
`Feature`), with interest "unknown" when the customer is missing or has no
interest tag and engagement values defaulting to 0 when absent; a campaign
whose customer id does not resolve still yields one valid training example
and is not discarded. -/
theorem c7_feature_builder (customers : Customers) (custId : String)
    (c : Campaign) :
    featureOf customers custId c =
      { interest := ((customers.lookup custId).bind Customer.interest).getD "unknown"
      , open_rate := c.open_rate.getD 0
      , click_rate := c.click_rate.getD 0
      , conversions := c.conversions.getD 0 } ∧
    (customers.lookup custId = none →
      (featureOf customers custId c).interest = "unknown") ∧
    (∀ p : String, c.customer_id = some custId → c.product = some p →
      build_training_data customers [c] =
        .ok ([featureOf customers custId c], [p])) := by
  refine ⟨rfl, fun h => ?_, fun p h1 h2 => ?_⟩
  · simp [featureOf, h]
  · simp [build_training_data, h1, h2, getItem, bind, except_bind_ok, featureOf]

/-- C7, witness: a campaign whose customer id resolves to no customer still
yields one training example, with interest "unknown". -/
theorem c7_feature_builder_witness :
    build_training_data [] [campWith "ghost" "Laptop"] =
      .ok ([featureOf [] "ghost" (campWith "ghost" "Laptop")], ["Laptop"]) ∧
    (featureOf [] "ghost" (campWith "ghost" "Laptop")).interest = "unknown" :=
  ⟨(c7_feature_builder [] "ghost" (campWith "ghost" "Laptop")).2.2 "Laptop" rfl rfl,
   (c7_feature_builder [] "ghost" (campWith "ghost" "Laptop")).2.1 rfl⟩

/-- C8, counterexample: the save step is not all-or-nothing. Starting from
a store holding a previously persisted pair, interrupting the write after
`open(MODEL_PATH, "wb")` has truncated the file in place leaves a state in
which a load no longer returns the old pair — it raises — so the previous
model is destroyed mid-write, which a temporary-location plus
atomic-rename scheme would make impossible. -/
theorem c8_inplace_write_counterexample :
    load_model (openTruncate ⟨.saved wVec wClf, false⟩) =
      .error .unpicklingError ∧
    load_model ⟨.saved wVec wClf, false⟩ = .ok (some (wVec, wClf)) :=
  ⟨rfl, rfl⟩

/-- C8, amended: the model save writes directly to the final path — a
successful training pass updates the store by exactly the two in-place
steps truncate-then-write, with no temporary location and no atomic
rename; after the truncate step the store no longer loads the previously
persisted pair (loading raises), so an interruption mid-write loses the old
model. It never exposes a loadable but internally inconsistent pair,
because the partially written artifact fails to load at all. -/
theorem c8_save_not_atomic (vec : Vectorizer) (clf : Classifier) (s : Store) :
    dumpPair vec clf (openTruncate s) = { s with file := .saved vec clf } ∧
    load_model (openTruncate s) = .error .unpicklingError ∧
    (∀ (d : List Int → Nat) (customers : Customers)
        (campaigns : List Campaign) (s2 : Store),
      train_and_save d customers campaigns s = .ok (some (vec, clf), s2) →
        s2 = dumpPair vec clf (openTruncate s)) := by
  refine ⟨rfl, rfl, ?_⟩
  intro d customers campaigns s2 h
  unfold train_and_save at h
  cases hbt : build_training_data customers campaigns with
  | error e =>
    rw [hbt] at h
    exact Except.noConfusion h
  | ok Xy =>
    rw [hbt] at h
    obtain ⟨X, y⟩ := Xy
    simp only [bind, except_bind_ok] at h
    by_cases hX : X.length < 5
    · rw [if_pos hX] at h
      simp at h
    · rw [if_neg hX] at h
      unfold LogisticRegression.fit at h
      split at h
      · rw [except_bind_err] at h
        exact Except.noConfusion h
      · rw [except_bind_ok] at h
        by_cases hw : s.writeFails = true
        · rw [if_pos hw] at h
          exact Except.noConfusion h
        · rw [if_neg hw] at h
          simp only [Except.ok.injEq, Prod.mk.injEq, Option.some.injEq] at h
          obtain ⟨⟨h1, h2⟩, h3⟩ := h
          subst h1
          subst h2
          exact h3.symm

/-- C8, witness: the in-place two-step write applied to the concrete
training pass over `mixedCampaigns` starting from an empty store. -/
theorem c8_save_not_atomic_witness :
    (⟨.saved wVecMixed wClfMixed, false⟩ : Store) =
      dumpPair wVecMixed wClfMixed (openTruncate ⟨.absent, false⟩) :=
  (c8_save_not_atomic wVecMixed wClfMixed ⟨.absent, false⟩).2.2 dZero
    laptopCustomers mixedCampaigns ⟨.saved wVecMixed wClfMixed, false⟩ rfl

/-- C9: with no model persisted, the result of `recommend` depends only on
the resolved interest string: any two no-model calls whose resolved
interests are equal return the same product, regardless of the campaigns
argument or any other customer fields. -/
theorem c9_fallback_noninterference (cs1 cs2 : Customers)
    (ks1 ks2 : List Campaign) (cid1 cid2 : String) (w1 w2 : Bool)
    (h : interestOf cs1 cid1 = interestOf cs2 cid2) :
    recommend cs1 ks1 cid1 ⟨.absent, w1⟩ =
      recommend cs2 ks2 cid2 ⟨.absent, w2⟩ := by
  rw [recommend_absent, recommend_absent, h]

/-- C9, witness: two no-model calls with different ids, different customer
records (extra fields) and different campaign lists but the same interest
string return the same product. -/
theorem c9_fallback_noninterference_witness :
    recommend [("a", custWith "music")] [] "a" ⟨.absent, false⟩ =
      recommend
        [("b", { name := some "Bob", interest := some "music",
                 created_at := some "2024-01-01 00:00" })]
        [campWith "b" "Laptop"] "b" ⟨.absent, true⟩ :=
  c9_fallback_noninterference _ _ _ _ _ _ _ _ rfl

/-- C10: on campaigns whose records all carry `customer_id` and `product`,
`build_training_data` is total, returning X and y of the same length as the
campaigns list with the i-th feature derived from the i-th campaign in
input order and the i-th label that campaign's product; a record missing
either key makes the whole call fail with a `KeyError` rather than being
skipped. -/
theorem c10_build_total_or_keyerror :
    (∀ (customers : Customers) (campaigns : List Campaign),
      wellKeyed campaigns →
        build_training_data customers campaigns =
          .ok (campaigns.map (featureRow customers), labelsOf campaigns) ∧
        (campaigns.map (featureRow customers)).length = campaigns.length ∧
        (labelsOf campaigns).length = campaigns.length) ∧
    (∀ (customers : Customers) (campaigns : List Campaign),
      (∃ c ∈ campaigns, c.customer_id = none ∨ c.product = none) →
        isKeyError (build_training_data customers campaigns)) :=
  ⟨fun customers campaigns h =>
    ⟨build_training_data_eq_of_wellKeyed customers campaigns h,
     List.length_map _ _, List.length_map _ _⟩,
   fun customers campaigns h =>
    build_training_data_keyError customers campaigns h⟩

/-- C10, witness: a well-keyed history builds in order; a record with a
missing `customer_id` key raises `KeyError`. -/
theorem c10_build_total_or_keyerror_witness :
    build_training_data laptopCustomers mixedCampaigns =
      .ok (mixedCampaigns.map (featureRow laptopCustomers),
        labelsOf mixedCampaigns) ∧
    isKeyError (build_training_data [] [{ product := some "Laptop" }]) :=
  ⟨(c10_build_total_or_keyerror.1 laptopCustomers mixedCampaigns (by decide)).1,
   c10_build_total_or_keyerror.2 [] [{ product := some "Laptop" }] (by decide)⟩

end MLModel
